import Mathlib

/-!
Verification development for the notary conformance harness
(buildscripts/testchangefeed.py and buildscripts/testclient.py).

The harness drives the notary client binary against a remote notary
server and asserts invariants about the server's change feed, about
root-key rotation, and about the pagination behaviour of the feed.
The harness code itself (command construction, query building,
authentication, scenario sequencing, error propagation) is embedded
directly from the source.  The remote server and the client binary are
not part of the visible sources, so their feed/rotation behaviour is
modelled from the specification where a claim depends on it; such
definitions carry a doc comment starting with the words Modelled from
the spec.
-/

namespace Notary

/-- A change-feed record as decoded from the feed JSON:
fields ID (server-assigned monotonic sequence identifier),
GUN (the identity / repository name) and Category. -/
structure Record where
  ID : Nat
  GUN : String
  Category : String
deriving DecidableEq, Repr, Inhabited

/-- A decoded change-feed page: a count and the list of records. -/
structure Page where
  count : Nat
  records : List Record
deriving DecidableEq, Repr

/-- The notary client subcommands issued by the harness scenarios
(buildscripts/testchangefeed.py).  Each constructor mirrors one
argument vector passed to Client.run. -/
inductive Cmd
  | init (repo : String)
  | add (repo name file : String) (role : Option String)
  | publish (repo : String)
  | listTargets (repo : String)
  | verify (repo name file : String)
  | keyRotate (repo role : String) (serverManaged : Bool)
  | keyList
  | keyImport (file : String) (role : Option String)
  | delegationAdd (repo role certfile : String)
  | delegationList (repo : String)
  | deleteRemote (repo : String)
deriving DecidableEq, Repr

/-- Modelled from the spec: which client commands make the server
append a change-feed record, and with which GUN and Category.  The
server is not part of the visible sources.  Per the spec (section 4.3),
the basic scenario contributes 1 record (its publish), the delegation
scenario 3 mutating publishes (the server-managed snapshot rotation and
two publishes) and the root-rotation scenario 3 more (the root rotation
and two publishes); a remote delete appends a single deletion record. -/
def feedEffect : Cmd → Option (String × String)
  | .publish r => some (r, "update")
  | .keyRotate r _ _ => some (r, "update")
  | .deleteRemote r => some (r, "deletion")
  | _ => none

/-- Modelled from the spec: the server state backing the change feed,
an append-only totally ordered log with a monotonic next sequence
identifier. -/
structure Server where
  feed : List Record
  nextId : Nat
deriving DecidableEq, Repr

/-- Modelled from the spec: applying one client command to the server
appends at most one record to the feed. -/
def Server.apply (s : Server) (c : Cmd) : Server :=
  match feedEffect c with
  | none => s
  | some (gun, cat) => ⟨s.feed ++ [⟨s.nextId, gun, cat⟩], s.nextId + 1⟩

/-- Apply a whole scenario command sequence to the server. -/
def Server.applyAll (s : Server) (cs : List Cmd) : Server :=
  cs.foldl Server.apply s

/-- The server before the first scenario: empty feed. -/
def initialServer : Server := ⟨[], 1⟩

/-- Path of the delegation certificate fixture used by the scenarios. -/
def delegationCert : String := "fixtures/secure.example.com.crt"

/-- Path of the delegation key fixture used by the scenarios. -/
def delegationKey : String := "fixtures/secure.example.com.key"

/-- The client commands issued by Tester.basic_repo_test, in order. -/
def basicRepoCmds (repo f : String) : List Cmd :=
  [ .init repo,
    .add repo "basic_repo_test" f none,
    .publish repo,
    .listTargets repo,
    .listTargets repo,
    .verify repo "basic_repo_test" f ]

/-- The client commands issued by Tester.add_delegation_test, in order. -/
def addDelegationCmds (repo f : String) : List Cmd :=
  [ .keyRotate repo "snapshot" true,
    .delegationAdd repo "targets/releases" delegationCert,
    .publish repo,
    .delegationList repo,
    .delegationList repo,
    .keyImport delegationKey (some "targets/releases"),
    .add repo "add_delegation_test" f (some "targets/releases"),
    .publish repo,
    .listTargets repo,
    .listTargets repo ]

/-- The client commands issued by Tester.root_rotation_test, in order. -/
def rootRotationCmds (repo f : String) : List Cmd :=
  [ .listTargets repo,
    .keyList,
    .keyRotate repo "root" false,
    .keyList,
    .listTargets repo,
    .keyImport delegationKey (some "targets/releases"),
    .add repo "root_rotation_test_delegation_add" f (some "targets/releases"),
    .publish repo,
    .add repo "root_rotation_test_targets_add" f none,
    .publish repo,
    .listTargets repo,
    .listTargets repo ]

/-- Server state after the basic lifecycle scenario. -/
def serverAfterBasic (repo f1 : String) : Server :=
  initialServer.applyAll (basicRepoCmds repo f1)

/-- Server state after the delegation scenario. -/
def serverAfterDelegation (repo f1 f2 : String) : Server :=
  (serverAfterBasic repo f1).applyAll (addDelegationCmds repo f2)

/-- Server state after the root-rotation scenario. -/
def serverAfterRotation (repo f1 f2 f3 : String) : Server :=
  (serverAfterDelegation repo f1 f2).applyAll (rootRotationCmds repo f3)

/-- Modelled from the spec: the server's change-feed pagination.  The
cursor is (start, pagesize): a negative pagesize scans backward
(descending) from start with magnitude bounding the page; a negative
start is the relative-to-most-recent sentinel; otherwise the page is
the ascending run of records with sequence identifier strictly greater
than start, truncated to pagesize.  The returned count is the number of
records in the page. -/
def fetchPage (feed : List Record) (start : Int) (pagesize : Int) : Page :=
  let selected :=
    if pagesize < 0 then
      ((feed.filter (fun r => (r.ID : Int) < start)).reverse).take (-pagesize).toNat
    else if start < 0 then
      (feed.drop (feed.length - (-start).toNat)).take pagesize.toNat
    else
      (feed.filter (fun r => (r.ID : Int) > start)).take pagesize.toNat
  ⟨selected.length, selected⟩

/-- An HTTP request as issued by the change-feed client: a URL, an
optional basic-auth pair, and a list of headers. -/
structure HttpRequest where
  url : String
  basicAuth : Option (String × String)
  headers : List (String × String)
deriving DecidableEq, Repr

/-- An HTTP response: a status code and the decoded JSON body, taken
as a finite map of string-valued fields. -/
structure HttpResponse where
  status : Nat
  fields : List (String × String)
deriving DecidableEq, Repr

/-- The Python-level errors the change-feed client can raise while
building or decoding its requests. -/
inductive PyError
  | indexError
  | keyError (key : String)
deriving DecidableEq, Repr

/-- Embeds Client.__init__ state (testchangefeed.py): the server URL
and the username/password tuple, which defaults to the empty tuple. -/
structure Client where
  notary_server : String
  username_passwd : List String
deriving DecidableEq, Repr

/-- The token-endpoint URL built by Client.changefeed: with a gun the
scope is a repository pull scope, otherwise the catalog-wide scope. -/
def Client.tokenUrl (c : Client) (gun : Option String) : String :=
  match gun with
  | some g =>
      c.notary_server ++ "/auth/token?realm=dtr&service=dtr&scope=repository:" ++ g ++ ":pull"
  | none => c.notary_server ++ "/auth/token?service=dtr&scope=registry:catalog:*"

/-- The feed-endpoint base URL built by Client.changefeed. -/
def Client.feedBaseUrl (c : Client) (gun : Option String) : String :=
  match gun with
  | some g => c.notary_server ++ "/v2/" ++ g ++ "/_trust/changefeed"
  | none => c.notary_server ++ "/v2/_trust/changefeed"

/-- Embeds the query-list construction of Client.changefeed: the
change_id term is appended when start is not None, then the records
term is appended when pagesize is not None. -/
def changefeedTerms (start pagesize : Option Int) : List String :=
  (match start with
   | none => []
   | some s => ["change_id=" ++ toString s]) ++
  (match pagesize with
   | none => []
   | some p => ["records=" ++ toString p])

/-- The full feed URL of Client.changefeed: base, a question mark, and
the query terms joined by an ampersand. -/
def Client.feedUrl (c : Client) (gun : Option String) (start pagesize : Option Int) : String :=
  c.feedBaseUrl gun ++ "?" ++ String.intercalate "&" (changefeedTerms start pagesize)

/-- Embeds the token extraction of Client.changefeed, namely the
expression taking the token field of the decoded token response.  A
missing field raises KeyError; the HTTP status is not examined. -/
def authTokenOf (resp : HttpResponse) : Except PyError String :=
  match List.lookup "token" resp.fields with
  | some t => Except.ok t
  | none => Except.error (PyError.keyError "token")

/-- Embeds Client.changefeed against an HTTP oracle.  The URLs and the
query are built first; then the credential tuple is indexed at 0 and 1
(raising IndexError when absent, before any request is sent); then the
token request is issued with basic auth; then the token field is read
from the response; then the feed request is issued with the bearer
Authorization header.  The second component is the trace of HTTP
requests actually issued. -/
def Client.changefeed (c : Client) (http : HttpRequest → HttpResponse)
    (gun : Option String) (start pagesize : Option Int) :
    Except PyError (List (String × String)) × List HttpRequest :=
  let token_url := c.tokenUrl gun
  let changefeed_url := c.feedUrl gun start pagesize
  match c.username_passwd.get? 0, c.username_passwd.get? 1 with
  | some u, some p =>
      let req1 : HttpRequest := ⟨token_url, some (u, p), []⟩
      let resp1 := http req1
      (match authTokenOf resp1 with
       | Except.error e => (Except.error e, [req1])
       | Except.ok token =>
           let req2 : HttpRequest :=
             ⟨changefeed_url, none, [("Authorization", "Bearer " ++ token)]⟩
           let resp2 := http req2
           (Except.ok resp2.fields, [req1, req2]))
  | _, _ => (Except.error PyError.indexError, [])

/-- The start and pagesize arguments of the first changefeed call in
Tester.changefeed_test: the call passes start equal to 0 and pagesize
equal to 1 (Python integers, not None). -/
def changefeedTestFirstCall : Option Int × Option Int := (some 0, some 1)

/-- The outcome of the notary client subprocess: the captured standard
output and the exit status. -/
structure ProcResult where
  output : String
  retcode : Int
deriving DecidableEq, Repr

/-- The CalledProcessError raised by Client.run on a non-zero exit
status: it carries the exit status, the full command vector, and the
captured output. -/
structure ExecError where
  returncode : Int
  cmd : List String
  output : String
deriving DecidableEq, Repr

/-- The full command vector built by Client.run: the configured client
invocation, the trust-directory flag, then the call arguments. -/
def runCommand (clientArgs : List String) (trust_dir : String) (args : List String) :
    List String :=
  clientArgs ++ ["-d", trust_dir] ++ args

/-- Embeds the exit-status handling shared by Client.run in
testchangefeed.py and testclient.py: a truthy (non-zero) exit status
raises CalledProcessError with the command, status and output; a zero
status returns the captured output.  Nothing in either executor
catches or retries the error. -/
def Client.run (clientArgs : List String) (trust_dir : String) (args : List String)
    (res : ProcResult) : Except ExecError String :=
  if res.retcode ≠ 0 then
    Except.error ⟨res.retcode, runCommand clientArgs trust_dir args, res.output⟩
  else
    Except.ok res.output

/-- Root metadata as read from the cached root.json by
root_rotation_test: the key identifiers present under signed.keys, and
the currently trusted identifiers under signed.roles.root.keyids. -/
structure RootMeta where
  keys : List String
  rootKeyids : List String
deriving DecidableEq, Repr

/-- Insert a key identifier into the signed.keys mapping: a JSON
object cannot hold a duplicate key, so an already-present identifier
leaves the mapping unchanged. -/
def insertKey (keys : List String) (k : String) : List String :=
  if k ∈ keys then keys else keys ++ [k]

/-- Modelled from the spec: the root-rotation operation performed by
the client binary and observed by root_rotation_test through the
re-synced root.json.  Rotation generates a fresh root key: the new key
identifier is added to signed.keys (the old keys are kept for the
cross-signing chain) and signed.roles.root.keyids is replaced by the
singleton holding the new identifier. -/
def rotateRoot (m : RootMeta) (newKey : String) : RootMeta :=
  { keys := insertKey m.keys newKey, rootKeyids := [newKey] }

/-- A temporary filesystem resource created or deleted by Tester.run:
the per-scenario marker file, the per-scenario secondary directory, or
the primary working directory of the Tester. -/
inductive Resource
  | tempfile (scenario : String)
  | tempdir (scenario : String)
  | mainDir
deriving DecidableEq, Repr

/-- The observable outcome of Tester.run: which scenarios ran (in
order), which resources were deleted (in order), and whether the run
raised. -/
structure RunTrace where
  ran : List String
  deleted : List Resource
  failed : Bool
deriving DecidableEq, Repr

/-- Embeds the loop body of Tester.run over a list of scenarios paired
with whether each raises: each iteration creates the scenario's
tempfile and tempdir, runs the scenario, re-raises on an exception
(leaving the tempfile and tempdir in place and stopping the loop), and
otherwise cleans up the tempfile and tempdir; after a completed loop
the primary directory is cleaned up. -/
def testerRunLoop : List (String × Bool) → RunTrace → RunTrace
  | [], tr => { tr with deleted := tr.deleted ++ [Resource.mainDir] }
  | (name, raises) :: rest, tr =>
      let tr := { tr with ran := tr.ran ++ [name] }
      if raises then
        { tr with failed := true }
      else
        testerRunLoop rest
          { tr with deleted := tr.deleted ++ [Resource.tempfile name, Resource.tempdir name] }

/-- Run the Tester loop from an empty trace. -/
def testerRun (scenarios : List (String × Bool)) : RunTrace :=
  testerRunLoop scenarios ⟨[], [], false⟩

/-- The fixed scenario order of Tester.run in testchangefeed.py. -/
def changefeedScenarios : List String :=
  ["basic_repo_test", "add_delegation_test", "root_rotation_test", "changefeed_test"]

/-- Tester.run with a given raising behaviour per scenario name. -/
def testerRunScenarios (raises : String → Bool) : RunTrace :=
  testerRun (changefeedScenarios.map (fun n => (n, raises n)))

/-- For a forward page (non-negative start and pagesize) the count is
the length of the ascending run above start truncated to pagesize. -/
theorem fetchPage_count_forward (l : List Record) (start n : Int)
    (h0 : 0 ≤ start) (hn : 0 ≤ n) :
    (fetchPage l start n).count =
      min n.toNat (l.filter (fun r => (r.ID : Int) > start)).length := by
  have h1 : ¬ n < 0 := by omega
  have h2 : ¬ start < 0 := by omega
  simp [fetchPage, h1, h2, List.length_take]

/-- Claim C1: driving one Identity through the basic-lifecycle,
delegation and root-rotation scenarios in order, the change feed
queried after each scenario (the default cursor used by
Client.changefeed, start 0 and pagesize 100) reports cumulative counts
1, 4 and 7, and every record returned carries that Identity as its GUN
and the Category update. -/
theorem changefeed_counts_after_scenarios (repo f1 f2 f3 : String) :
    (fetchPage (serverAfterBasic repo f1).feed 0 100).count = 1 ∧
    (fetchPage (serverAfterDelegation repo f1 f2).feed 0 100).count = 4 ∧
    (fetchPage (serverAfterRotation repo f1 f2 f3).feed 0 100).count = 7 ∧
    ((fetchPage (serverAfterBasic repo f1).feed 0 100).records ++
     (fetchPage (serverAfterDelegation repo f1 f2).feed 0 100).records ++
     (fetchPage (serverAfterRotation repo f1 f2 f3).feed 0 100).records).all
      (fun r => r.GUN == repo && r.Category == "update") = true := by
  refine ⟨rfl, rfl, rfl, ?_⟩
  simp [serverAfterBasic, serverAfterDelegation, serverAfterRotation, basicRepoCmds,
    addDelegationCmds, rootRotationCmds, Server.applyAll, Server.apply, feedEffect,
    initialServer, fetchPage]

/-- Claim C2: in the pagination scenario, with start taken as the
sequence identifier of the 5th record of the full forward history, a
forward page of size 1 (issued after the remote delete) returns
exactly the 6th record of that history, and a backward page of
magnitude 1 from the same start returns exactly the 4th record. -/
theorem changefeed_pagination_around_fifth (repo f1 f2 f3 : String) :
    (fetchPage ((serverAfterRotation repo f1 f2 f3).apply (Cmd.deleteRemote repo)).feed
        (((fetchPage (serverAfterRotation repo f1 f2 f3).feed 0 1000).records.getD 4
          default).ID : Int) 1).count = 1 ∧
    ((fetchPage ((serverAfterRotation repo f1 f2 f3).apply (Cmd.deleteRemote repo)).feed
        (((fetchPage (serverAfterRotation repo f1 f2 f3).feed 0 1000).records.getD 4
          default).ID : Int) 1).records.getD 0 default).ID =
      ((fetchPage (serverAfterRotation repo f1 f2 f3).feed 0 1000).records.getD 5
        default).ID ∧
    (fetchPage ((serverAfterRotation repo f1 f2 f3).apply (Cmd.deleteRemote repo)).feed
        (((fetchPage (serverAfterRotation repo f1 f2 f3).feed 0 1000).records.getD 4
          default).ID : Int) (-1)).count = 1 ∧
    ((fetchPage ((serverAfterRotation repo f1 f2 f3).apply (Cmd.deleteRemote repo)).feed
        (((fetchPage (serverAfterRotation repo f1 f2 f3).feed 0 1000).records.getD 4
          default).ID : Int) (-1)).records.getD 0 default).ID =
      ((fetchPage (serverAfterRotation repo f1 f2 f3).feed 0 1000).records.getD 3
        default).ID := by
  have h4 : (((fetchPage (serverAfterRotation repo f1 f2 f3).feed 0 1000).records.getD 4
      default).ID : Int) = 5 := rfl
  have h5 : ((fetchPage (serverAfterRotation repo f1 f2 f3).feed 0 1000).records.getD 5
      default).ID = 6 := rfl
  have h3 : ((fetchPage (serverAfterRotation repo f1 f2 f3).feed 0 1000).records.getD 3
      default).ID = 4 := rfl
  rw [h4, h5, h3]
  exact ⟨rfl, rfl, rfl, rfl⟩

/-- Claim C3 counterexample: the first page query of
Tester.changefeed_test is issued with start 0, not None, so the built
query does include a change_id term. -/
theorem changefeed_test_first_call_includes_change_id :
    changefeedTestFirstCall.1 ≠ none ∧
    changefeedTerms changefeedTestFirstCall.1 changefeedTestFirstCall.2 =
      ["change_id=0", "records=1"] :=
  ⟨by simp [changefeedTestFirstCall], rfl⟩

/-- Claim C3 as amended: the first page query of the pagination
scenario is issued with start 0 (so the change_id term is included as
change_id=0) and page size 1, and over the full 7-record history it
returns exactly one record, namely the first; a query with start 0 and
page size at least the history length returns a page whose count
equals that length. -/
theorem changefeed_first_and_full_page (repo f1 f2 f3 : String) (n : Int) (hn : 7 ≤ n) :
    (fetchPage (serverAfterRotation repo f1 f2 f3).feed 0 1).count = 1 ∧
    (fetchPage (serverAfterRotation repo f1 f2 f3).feed 0 1).records.getD 0 default =
      (serverAfterRotation repo f1 f2 f3).feed.getD 0 default ∧
    (fetchPage (serverAfterRotation repo f1 f2 f3).feed 0 n).count = 7 := by
  refine ⟨rfl, rfl, ?_⟩
  rw [fetchPage_count_forward _ _ _ (by omega) (by omega)]
  rw [show ((serverAfterRotation repo f1 f2 f3).feed.filter
    (fun r => (r.ID : Int) > 0)).length = 7 from rfl]
  rw [Nat.min_eq_right (by omega)]

/-- Claim C3 amended witness: the full-page query at the concrete page
size 1000 used by the scenario. -/
theorem changefeed_first_and_full_page_witness :
    (fetchPage (serverAfterRotation "repo" "f1" "f2" "f3").feed 0 1000).count = 7 :=
  (changefeed_first_and_full_page "repo" "f1" "f2" "f3" 1000 (by omega)).2.2

/-- Claim C4: immediately after the remote delete, a page with start
the most-recent sentinel -1 and page size 1 has count exactly 1 and
its single record has Category deletion. -/
theorem changefeed_most_recent_after_delete (repo f1 f2 f3 : String) :
    (fetchPage ((serverAfterRotation repo f1 f2 f3).apply (Cmd.deleteRemote repo)).feed
      (-1) 1).count = 1 ∧
    ((fetchPage ((serverAfterRotation repo f1 f2 f3).apply (Cmd.deleteRemote repo)).feed
      (-1) 1).records.getD 0 default).Category = "deletion" :=
  ⟨rfl, rfl⟩

/-- Claim C5: Client.changefeed builds its query so that the
change_id term is present exactly when start is not None and the
records term exactly when pagesize is not None (negative values
included), in that order joined by an ampersand, and it sends the feed
request with an Authorization header holding the bearer token obtained
from the token endpoint. -/
theorem changefeed_query_and_auth
    (c : Client) (http : HttpRequest → HttpResponse) (gun : Option String)
    (start pagesize : Option Int) (u p token : String)
    (hu : c.username_passwd.get? 0 = some u)
    (hp : c.username_passwd.get? 1 = some p)
    (htok : List.lookup "token" (http ⟨c.tokenUrl gun, some (u, p), []⟩).fields =
      some token) :
    changefeedTerms start pagesize =
      (if start.isSome then ["change_id=" ++ toString (start.getD 0)] else []) ++
      (if pagesize.isSome then ["records=" ++ toString (pagesize.getD 0)] else []) ∧
    c.feedUrl gun start pagesize =
      c.feedBaseUrl gun ++ "?" ++ String.intercalate "&" (changefeedTerms start pagesize) ∧
    (c.changefeed http gun start pagesize).2 =
      [⟨c.tokenUrl gun, some (u, p), []⟩,
       ⟨c.feedUrl gun start pagesize, none, [("Authorization", "Bearer " ++ token)]⟩] ∧
    (c.changefeed http gun start pagesize).1 =
      Except.ok (http ⟨c.feedUrl gun start pagesize, none,
        [("Authorization", "Bearer " ++ token)]⟩).fields := by
  rw [List.get?_eq_getElem?] at hu hp
  refine ⟨?_, rfl, ?_, ?_⟩
  · cases start <;> cases pagesize <;> rfl
  · simp [Client.changefeed, hu, hp, authTokenOf, htok]
  · simp [Client.changefeed, hu, hp, authTokenOf, htok]

/-- Claim C5 witness: the request trace and the query terms at a
concrete client, oracle, identity and cursor. -/
theorem changefeed_query_and_auth_witness :
    ((Client.mk "https://srv" ["user", "pass"]).changefeed
        (fun _ => ⟨200, [("token", "tok")]⟩) (some "gun") (some 0) (some (-1))).2 =
      [⟨"https://srv/auth/token?realm=dtr&service=dtr&scope=repository:gun:pull",
        some ("user", "pass"), []⟩,
       ⟨"https://srv/v2/gun/_trust/changefeed?change_id=0&records=-1", none,
        [("Authorization", "Bearer tok")]⟩] ∧
    changefeedTerms (some 0) (some (-1)) = ["change_id=0", "records=-1"] := by
  have h := changefeed_query_and_auth (Client.mk "https://srv" ["user", "pass"])
    (fun _ => ⟨200, [("token", "tok")]⟩) (some "gun") (some 0) (some (-1))
    "user" "pass" "tok" rfl rfl rfl
  exact ⟨h.2.2.1, h.1⟩

/-- Claim C6 counterexample: a token response with the non-success
status 500 whose body nevertheless holds a token field does not make
the exchange fail - the token is returned, because the status is never
examined. -/
theorem auth_token_status_counterexample :
    authTokenOf ⟨500, [("token", "sometoken")]⟩ = Except.ok "sometoken" ∧
    ¬ 500 < 400 :=
  ⟨rfl, by omega⟩

/-- Claim C6 as amended: the token exchange of Client.changefeed fails
(with a KeyError) exactly when the response body lacks a token field,
and otherwise returns that field; the HTTP status is never examined,
so changing it cannot affect the outcome. -/
theorem auth_token_fails_iff_token_missing (resp : HttpResponse) (s : Nat) :
    authTokenOf { resp with status := s } = authTokenOf resp ∧
    (authTokenOf resp = Except.error (PyError.keyError "token") ↔
      List.lookup "token" resp.fields = none) ∧
    authTokenOf resp =
      (List.lookup "token" resp.fields).elim
        (Except.error (PyError.keyError "token")) Except.ok := by
  cases h : List.lookup "token" resp.fields <;> simp [authTokenOf, h]

/-- Claim C7: Client.run returns the captured output when the exit
status is zero, and otherwise surfaces a CalledProcessError carrying
the full command vector, the exit status and the captured output; the
executor itself never catches or retries it. -/
theorem run_surfaces_exit_status (clientArgs : List String) (trust_dir : String)
    (args : List String) (res : ProcResult) :
    Client.run clientArgs trust_dir args res =
      (if res.retcode = 0 then Except.ok res.output
       else Except.error ⟨res.retcode, clientArgs ++ ["-d", trust_dir] ++ args,
         res.output⟩) := by
  by_cases h : res.retcode = 0 <;> simp [Client.run, runCommand, h]

/-- Claim C8: when the cached root metadata holds exactly one trusted
root key identifier that is among its keys, rotating to a fresh key
leaves one more key in signed.keys, still exactly one trusted root key
identifier, and a trusted set different from the old one. -/
theorem root_rotation_key_counts (m : RootMeta) (newKey : String)
    (_h1 : m.rootKeyids.length = 1)
    (h2 : ∀ k ∈ m.rootKeyids, k ∈ m.keys)
    (h3 : newKey ∉ m.keys) :
    (rotateRoot m newKey).keys.length = m.keys.length + 1 ∧
    (rotateRoot m newKey).rootKeyids.length = 1 ∧
    (rotateRoot m newKey).rootKeyids ≠ m.rootKeyids := by
  refine ⟨?_, rfl, ?_⟩
  · simp [rotateRoot, insertKey, h3]
  · intro hEq
    apply h3
    apply h2
    rw [← hEq]
    simp [rotateRoot]

/-- Claim C8 witness: a one-key root metadata rotated to a fresh key. -/
theorem root_rotation_key_counts_witness :
    (rotateRoot ⟨["k1"], ["k1"]⟩ "k2").keys.length = 2 ∧
    (rotateRoot ⟨["k1"], ["k1"]⟩ "k2").rootKeyids.length = 1 ∧
    (rotateRoot ⟨["k1"], ["k1"]⟩ "k2").rootKeyids ≠ ["k1"] :=
  root_rotation_key_counts ⟨["k1"], ["k1"]⟩ "k2" (by decide) (by decide) (by decide)

/-- Claim C9: Tester.run executes the four scenarios in their fixed
order; a raising scenario aborts the sequence with its tempfile and
tempdir (and the primary directory) left in place, every completed
scenario has its tempfile and tempdir deleted, and the primary
directory is deleted only after all four scenarios complete. -/
theorem tester_run_sequencing (raises : String → Bool)
    (pre post : List String) (n : String) :
    ((∀ m ∈ changefeedScenarios, raises m = false) →
      testerRunScenarios raises =
        ⟨changefeedScenarios,
         [Resource.tempfile "basic_repo_test", Resource.tempdir "basic_repo_test",
          Resource.tempfile "add_delegation_test", Resource.tempdir "add_delegation_test",
          Resource.tempfile "root_rotation_test", Resource.tempdir "root_rotation_test",
          Resource.tempfile "changefeed_test", Resource.tempdir "changefeed_test",
          Resource.mainDir],
         false⟩) ∧
    (changefeedScenarios = pre ++ n :: post →
      (∀ m ∈ pre, raises m = false) →
      raises n = true →
      (testerRunScenarios raises).ran = pre ++ [n] ∧
      (testerRunScenarios raises).failed = true ∧
      (testerRunScenarios raises).deleted =
        pre.flatMap (fun m => [Resource.tempfile m, Resource.tempdir m]) ∧
      Resource.tempfile n ∉ (testerRunScenarios raises).deleted ∧
      Resource.tempdir n ∉ (testerRunScenarios raises).deleted ∧
      Resource.mainDir ∉ (testerRunScenarios raises).deleted) := by
  constructor
  · intro h
    have e1 := h "basic_repo_test" (by simp [changefeedScenarios])
    have e2 := h "add_delegation_test" (by simp [changefeedScenarios])
    have e3 := h "root_rotation_test" (by simp [changefeedScenarios])
    have e4 := h "changefeed_test" (by simp [changefeedScenarios])
    simp [testerRunScenarios, testerRun, testerRunLoop, changefeedScenarios, e1, e2, e3, e4]
  · intro hdec hpre hn
    rcases pre with _ | ⟨a, pre1⟩
    · simp [changefeedScenarios] at hdec
      obtain ⟨hna, _⟩ := hdec
      subst hna
      simp [testerRunScenarios, testerRun, testerRunLoop, changefeedScenarios, hn]
    · rcases pre1 with _ | ⟨b, pre2⟩
      · simp [changefeedScenarios] at hdec
        obtain ⟨ha, hnb, _⟩ := hdec
        subst ha
        subst hnb
        have e1 := hpre "basic_repo_test" (by simp)
        simp [testerRunScenarios, testerRun, testerRunLoop, changefeedScenarios, e1, hn]
      · rcases pre2 with _ | ⟨c, pre3⟩
        · simp [changefeedScenarios] at hdec
          obtain ⟨ha, hb, hnc, _⟩ := hdec
          subst ha
          subst hb
          subst hnc
          have e1 := hpre "basic_repo_test" (by simp)
          have e2 := hpre "add_delegation_test" (by simp)
          simp [testerRunScenarios, testerRun, testerRunLoop, changefeedScenarios,
            e1, e2, hn]
        · rcases pre3 with _ | ⟨d, pre4⟩
          · simp [changefeedScenarios] at hdec
            obtain ⟨ha, hb, hc, hnd, _⟩ := hdec
            subst ha
            subst hb
            subst hc
            subst hnd
            have e1 := hpre "basic_repo_test" (by simp)
            have e2 := hpre "add_delegation_test" (by simp)
            have e3 := hpre "root_rotation_test" (by simp)
            simp [testerRunScenarios, testerRun, testerRunLoop, changefeedScenarios,
              e1, e2, e3, hn]
          · simp [changefeedScenarios] at hdec

/-- Claim C9 witness: one run where every scenario completes and one
run where the third scenario raises. -/
theorem tester_run_sequencing_witness :
    testerRunScenarios (fun _ => false) =
      ⟨changefeedScenarios,
       [Resource.tempfile "basic_repo_test", Resource.tempdir "basic_repo_test",
        Resource.tempfile "add_delegation_test", Resource.tempdir "add_delegation_test",
        Resource.tempfile "root_rotation_test", Resource.tempdir "root_rotation_test",
        Resource.tempfile "changefeed_test", Resource.tempdir "changefeed_test",
        Resource.mainDir],
       false⟩ ∧
    (testerRunScenarios (fun m => m == "root_rotation_test")).ran =
      ["basic_repo_test", "add_delegation_test", "root_rotation_test"] ∧
    (testerRunScenarios (fun m => m == "root_rotation_test")).deleted =
      [Resource.tempfile "basic_repo_test", Resource.tempdir "basic_repo_test",
       Resource.tempfile "add_delegation_test", Resource.tempdir "add_delegation_test"] ∧
    Resource.mainDir ∉ (testerRunScenarios (fun m => m == "root_rotation_test")).deleted := by
  have h1 := (tester_run_sequencing (fun _ => false) [] [] "basic_repo_test").1
    (by intro m _; rfl)
  have h2 := (tester_run_sequencing (fun m => m == "root_rotation_test")
    ["basic_repo_test", "add_delegation_test"] ["changefeed_test"]
    "root_rotation_test").2 rfl (by decide) rfl
  exact ⟨h1, h2.1, h2.2.2.1, h2.2.2.2.2.2⟩

/-- Claim C10: a Client holding the default empty credential tuple
raises IndexError on every changefeed call before issuing any HTTP
request, so neither the token endpoint nor the feed endpoint is ever
reached; a request trace is only ever nonempty for a client holding a
nonempty credential tuple. -/
theorem changefeed_requires_credentials (server : String)
    (http : HttpRequest → HttpResponse) (gun : Option String)
    (start pagesize : Option Int) (c : Client) :
    (Client.mk server []).changefeed http gun start pagesize =
      (Except.error PyError.indexError, []) ∧
    ((c.changefeed http gun start pagesize).2 ≠ [] → c.username_passwd ≠ []) := by
  constructor
  · rfl
  · intro htrace hcreds
    apply htrace
    simp [Client.changefeed, hcreds]

/-- Claim C10 witness: the empty-credential client fails without a
request; a credentialed client has a nonempty credential tuple forced
by its nonempty trace. -/
theorem changefeed_requires_credentials_witness :
    (Client.mk "https://srv" []).changefeed (fun _ => ⟨200, [("token", "tok")]⟩)
      (some "gun") (some 0) (some 1) = (Except.error PyError.indexError, []) ∧
    (Client.mk "https://srv" ["user", "pass"]).username_passwd ≠ [] :=
  ⟨(changefeed_requires_credentials "https://srv" (fun _ => ⟨200, [("token", "tok")]⟩)
      (some "gun") (some 0) (some 1) (Client.mk "https://srv" ["user", "pass"])).1,
   (changefeed_requires_credentials "https://srv" (fun _ => ⟨200, [("token", "tok")]⟩)
      (some "gun") (some 0) (some 1) (Client.mk "https://srv" ["user", "pass"])).2
     (by simp [Client.changefeed, authTokenOf])⟩

end Notary
